import Mathlib

/-!
Verification of the perception-fusion and orchestration subsystem of the
`andyjphu/hackharvard` agent (source: `src/py_files/perception.py` and
`src/py_files/agent_core.py`).

The Python code is shallowly embedded: pure data extraction and scoring
functions become Lean functions; the mutable engine state (the dedup set,
the agent state) is threaded explicitly; external boundaries (the
accessibility API, the visual/planning oracles, the step executor) are
parameters or oracle-supplied event traces; Python exceptions at those
boundaries are `Except` values.  Python string operations are re-implemented
by structural recursion over character lists so that every definition
evaluates inside the kernel (`decide`/`rfl`); they follow Python semantics
(`in` is substring containment, `strip` trims both ends, `lower` maps
ASCII case, `split(sep)` is leftmost non-overlapping splitting).
Python floats are modelled as `Rat` (only comparisons against constants
occur), and the AX pixel coordinates as `Int` (the 50-pixel Euclidean
proximity test is expressed on squared distances, which is exact).
-/

namespace Agent

/-- Characters Python `str.strip()` and `str.split()` treat as whitespace
(the common ASCII subset; the source strings never use the exotic ones). -/
def isSpaceChar (c : Char) : Bool :=
  c == ' ' || c == '\t' || c == '\n' || c == '\r'

/-- Python `str.lower()` (ASCII). -/
def pyLower (s : String) : String :=
  String.mk (s.toList.map Char.toLower)

/-- Python `str.strip()` with no argument: drop whitespace from both ends. -/
def pyStrip (s : String) : String :=
  String.mk (((s.toList.dropWhile isSpaceChar).reverse.dropWhile isSpaceChar).reverse)

/-- Python `str.strip(chars)`: drop characters of `cs` from both ends. -/
def pyStripChars (cs : List Char) (s : String) : String :=
  String.mk (((s.toList.dropWhile (fun c => cs.contains c)).reverse.dropWhile
    (fun c => cs.contains c)).reverse)

/-- Does the second list start with the first one (needle, haystack)? -/
def startsWithChars : List Char → List Char → Bool
  | [], _ => true
  | _ :: _, [] => false
  | a :: as, b :: bs => a == b && startsWithChars as bs

/-- Substring containment on character lists. -/
def containsChars (hay needle : List Char) : Bool :=
  match hay with
  | [] => needle.isEmpty
  | _ :: t => startsWithChars needle hay || containsChars t needle

/-- Python `needle in hay` for strings. -/
def strContains (hay needle : String) : Bool :=
  containsChars hay.toList needle.toList

/-- Worker for `pySplitOn`: walks the character list, cutting a piece whenever
the separator starts at the current position; the `Nat` counter skips the
remaining characters of a just-matched separator. -/
def splitOnGo (sep : List Char) : List Char → List Char → Nat → List (List Char)
  | [], acc, _ => [acc.reverse]
  | _ :: rest, acc, k+1 => splitOnGo sep rest acc k
  | c :: rest, acc, 0 =>
    if startsWithChars sep (c :: rest) then
      acc.reverse :: splitOnGo sep rest [] (sep.length - 1)
    else splitOnGo sep rest (c :: acc) 0

/-- Python `s.split(sep)` for a non-empty separator. -/
def pySplitOn (s sep : String) : List String :=
  (splitOnGo sep.toList s.toList [] 0).map String.mk

/-- Worker for `pySplitWs`. -/
def splitWsGo : List Char → List Char → List (List Char)
  | [], acc => if acc.isEmpty then [] else [acc.reverse]
  | c :: rest, acc =>
    if isSpaceChar c then
      if acc.isEmpty then splitWsGo rest [] else acc.reverse :: splitWsGo rest []
    else splitWsGo rest (c :: acc)

/-- Python `s.split()` with no argument: split on whitespace runs, dropping
empty pieces. -/
def pySplitWs (s : String) : List String :=
  (splitWsGo s.toList []).map String.mk

/-! ## Signal Collector data model (`perception.py`)

A `RawElement` is the slice of an accessibility node that
`PerceptionEngine._create_ui_signal` reads via `getattr`: every `getattr(e,
"AXFoo", None) or ""` becomes a `String` field where `""` models an absent
attribute.  A `Window` is the flattened recursive content of one `AXWindow`;
`window.findAllR(AXRole=role)` filters it by role.  Positions and sizes are
`Int` pixels. -/

structure RawElement where
  role : String
  identifier : String
  title : String
  description : String
  helpText : String
  value : String
  roleDescription : String
  posX : Int
  posY : Int
  sizeW : Int
  sizeH : Int
  enabled : Bool
  focused : Bool
  childTitles : List String
  actionNames : List String
deriving DecidableEq

abbrev Window := List RawElement

/-- `window.findAllR(AXRole=role)`. -/
def findAllR (w : Window) (role : String) : List RawElement :=
  w.filter (fun e => e.role == role)

/-- The `UISignal` dataclass of `perception.py`. -/
structure UISignal where
  id : String
  type : String
  position : Int × Int
  size : Int × Int
  current_value : String
  available_options : List String
  actions : List String
  title : String
  description : String
  enabled : Bool
  focused : Bool
deriving DecidableEq

/-- `PerceptionEngine._get_contextual_title`: heuristic label from role and
position buckets (the `element` parameter of the source is unused there). -/
def get_contextual_title (role : String) (pos : Int × Int) : String :=
  let x := pos.1
  let y := pos.2
  if role == "AXTextField" then
    if 150 < x && x < 400 && 70 < y && y < 100 then "Search Bar"
    else if 200 < x && x < 600 && 100 < y && y < 200 then "Address Bar"
    else "Text Input Field"
  else if role == "AXButton" then
    if 70 < y && y < 120 then
      if 300 < x && x < 500 then "Search Button"
      else if 500 < x && x < 700 then "Action Button"
      else if 700 < x && x < 900 then "Toolbar Button"
      else "Toolbar Button"
    else if 120 < y && y < 200 then "Action Button"
    else "Button"
  else if role == "AXPopUpButton" then "Dropdown Menu"
  else if role == "AXRadioButton" then "Option Button"
  else role ++ " Element"

/-- `PerceptionEngine._get_contextual_description`. -/
def get_contextual_description (role : String) (pos : Int × Int) : String :=
  let x := pos.1
  let y := pos.2
  if role == "AXTextField" then
    if 150 < x && x < 400 && 70 < y && y < 100 then
      "Main search input field for entering search queries"
    else "Text input field for user data entry"
  else if role == "AXButton" then
    if 300 < x && x < 400 && 70 < y && y < 100 then
      "Button to execute search or submit form"
    else if 400 < x && x < 500 && 70 < y && y < 100 then
      "Secondary action button (may be download/install button)"
    else if 500 < x && x < 600 && 70 < y && y < 100 then
      "Menu or toolbar button"
    else "Interactive button element"
  else if role == "AXPopUpButton" then "Dropdown menu for selecting options"
  else "Interactive " ++ pyLower role ++ " element"

/-- `PerceptionEngine._get_best_title`: label fallback chain
title → description → help → value → role description → contextual guess,
each step taken when the stripped attribute is non-empty. -/
def get_best_title (e : RawElement) (role : String) (pos : Int × Int) : String :=
  if pyStrip e.title ≠ "" then pyStrip e.title
  else if pyStrip e.description ≠ "" then pyStrip e.description
  else if pyStrip e.helpText ≠ "" then pyStrip e.helpText
  else if pyStrip e.value ≠ "" then pyStrip e.value
  else if pyStrip e.roleDescription ≠ "" then pyStrip e.roleDescription
  else get_contextual_title role pos

/-- `PerceptionEngine._get_best_description`: description → help → title →
value → contextual guess. -/
def get_best_description (e : RawElement) (role : String) (pos : Int × Int) : String :=
  if pyStrip e.description ≠ "" then pyStrip e.description
  else if pyStrip e.helpText ≠ "" then pyStrip e.helpText
  else if pyStrip e.title ≠ "" then pyStrip e.title
  else if pyStrip e.value ≠ "" then pyStrip e.value
  else get_contextual_description role pos

/-- `PerceptionEngine._create_ui_signal`: the id is the platform identifier
when present, else the synthesized `role_x_y` position key; options are the
non-empty child titles of a popup button. -/
def create_ui_signal (e : RawElement) (role : String) : UISignal :=
  let pos : Int × Int := (e.posX, e.posY)
  { id := if e.identifier ≠ "" then e.identifier
          else role ++ "_" ++ toString e.posX ++ "_" ++ toString e.posY
    type := role
    position := pos
    size := (e.sizeW, e.sizeH)
    current_value := e.value
    available_options :=
      if role == "AXPopUpButton" then e.childTitles.filter (fun t => t ≠ "") else []
    actions := e.actionNames
    title := get_best_title e role pos
    description := get_best_description e role pos
    enabled := e.enabled
    focused := e.focused }

/-- The fixed role list scanned by `PerceptionEngine._scan_window`. -/
def interactive_roles : List String :=
  ["AXButton", "AXPopUpButton", "AXCheckBox", "AXRadioButton", "AXTextField",
   "AXSlider", "AXMenuItem", "AXTabGroup", "AXComboBox", "AXList", "AXTable",
   "AXScrollArea"]

/-- One step of the inner element loop of `_scan_window`: skip the element if
its id is already in the per-call identity set, else append it and record the
id.  The accumulator is (elements collected so far, `self.seen_elements`). -/
def scan_element_step (role : String) (acc : List UISignal × List String)
    (e : RawElement) : List UISignal × List String :=
  let signal := create_ui_signal e role
  if acc.2.contains signal.id then acc
  else (acc.1 ++ [signal], signal.id :: acc.2)

/-- `PerceptionEngine._scan_window`: scan every interactive role of one
window, threading the engine's `seen_elements` set, and return the window's
new elements together with the updated set. -/
def scan_window (w : Window) (seen : List String) : List UISignal × List String :=
  interactive_roles.foldl
    (fun acc role => (findAllR w role).foldl (scan_element_step role) acc)
    ([], seen)

/-- The dictionary produced by `PerceptionEngine._signal_to_dict` (same
fields as `UISignal`, serialized). -/
structure SignalDict where
  id : String
  type : String
  position : Int × Int
  size : Int × Int
  current_value : String
  available_options : List String
  actions : List String
  title : String
  description : String
  enabled : Bool
  focused : Bool
deriving DecidableEq

/-- `PerceptionEngine._signal_to_dict`. -/
def signal_to_dict (s : UISignal) : SignalDict :=
  { id := s.id
    type := s.type
    position := s.position
    size := s.size
    current_value := s.current_value
    available_options := s.available_options
    actions := s.actions
    title := s.title
    description := s.description
    enabled := s.enabled
    focused := s.focused }

/-- `PerceptionEngine.discover_ui_signals`.  `seen_elements` is the engine's
dedup set as left by any previous call; the method clears it first
(`self.seen_elements.clear()`), so the parameter is deliberately unused.
`enum` models the window-enumeration boundary (`getAppRefByLocalizedName` /
`app.windows()` / launching): `Except.error` is the case where enumerating
applications or windows raises, which the surrounding `try/except` of the
source swallows before falling through to the normal `return` of the (empty)
element list.  Returns the serialized elements and the final dedup set. -/
def discover_ui_signals (seen_elements : List String)
    (enum : Except String (List Window)) : List SignalDict × List String :=
  match enum with
  | Except.error _ => (([] : List UISignal).map signal_to_dict, [])
  | Except.ok windows =>
    let scanned := windows.foldl
      (fun acc w =>
        let r := scan_window w acc.2
        (acc.1 ++ r.1, r.2))
      (([] : List UISignal), ([] : List String))
    (scanned.1.map signal_to_dict, scanned.2)

/-! ## Correlator (`perception.py`, `correlate_accessibility_visual`) -/

/-- The `VisualElement` dataclass: one element reported by the visual oracle.
`coordinates` is `none` when the `coordinates` dict is absent or empty
(Python falsy); otherwise the `(click_x, click_y)` pair. -/
structure VisualElement where
  type : String
  position : String
  text : String
  purpose : String
  characteristics : String
  task_relevant : Bool
  coordinates : Option (Int × Int)
deriving DecidableEq

/-- The `VisualAnalysis` dataclass. -/
structure VisualAnalysis where
  screen_description : String
  interactive_elements : List VisualElement
  safety_warnings : List String
  alternative_methods : List String
  task_context : String
deriving DecidableEq

/-- The generic tokens penalized by the text-correlation score
(`["button", "turn off", "click"]` in the source). -/
def generic_texts : List String := ["button", "turn off", "click"]

/-- Position component of the correlation score: +3 when the visual element
carries click coordinates within 50 pixels of the UI element's position
(`sqrt(dx²+dy²) < 50` is stated on squared distances, which is exact). -/
def position_score (uiPos : Int × Int) (v : VisualElement) : Int :=
  match v.coordinates with
  | some c =>
    let dx := uiPos.1 - c.1
    let dy := uiPos.2 - c.2
    if dx * dx + dy * dy < 2500 then 3 else 0
  | none => 0

/-- Text component of the correlation score (`ui_title` arrives already
lowercased by the caller, exactly as in the source): +2 for an exact match
of the stripped lowercased texts or a meaningful substring relation (shorter
side longer than 3 characters); otherwise −1 when either side is a generic
token; otherwise 0.  Nothing is scored when either raw text is empty. -/
def text_score (uiTitle visText : String) : Int :=
  if uiTitle ≠ "" ∧ visText ≠ "" then
    let u := pyLower (pyStrip uiTitle)
    let v := pyLower (pyStrip visText)
    if u = v ∨ (u.length > 3 ∧ strContains v u = true)
        ∨ (v.length > 3 ∧ strContains u v = true) then 2
    else if u ∈ generic_texts ∨ v ∈ generic_texts then -1
    else 0
  else 0

/-- Type component: +1 for case-insensitive substring overlap in either
direction (`ui_type` arrives already lowercased). -/
def type_score (uiType : String) (v : VisualElement) : Int :=
  if strContains (pyLower v.type) uiType || strContains uiType (pyLower v.type) then 1
  else 0

/-- Purpose component: +1 when the UI element's lowercased description is a
substring of the visual element's lowercased purpose. -/
def purpose_score (uiDescription : String) (v : VisualElement) : Int :=
  if strContains (pyLower v.purpose) (pyLower uiDescription) then 1 else 0

/-- The per-pair correlation score of `correlate_accessibility_visual`
(the four contributions are accumulated in source order). -/
def pair_correlation_score (ui : SignalDict) (v : VisualElement) : Int :=
  position_score ui.position v
    + text_score (pyLower ui.title) v.text
    + type_score (pyLower ui.type) v
    + purpose_score ui.description v

/-- The best-match inner loop: keep the strictly highest-scoring visual
element (first seen wins ties, `best_score` starts at 0 so only positive
scores can match). -/
def best_visual_match (ui : SignalDict) (ves : List VisualElement) :
    Option (VisualElement × Int) :=
  ves.foldl
    (fun best v =>
      let score := pair_correlation_score ui v
      match best with
      | none => if score > 0 then some (v, score) else none
      | some b => if score > b.2 then some (v, score) else best)
    none

/-- One correlation entry (the dict appended to `correlations`). -/
structure Correlation where
  accessibility_id : String
  visual_element : VisualElement
  correlation_score : Int
  ui_signal : SignalDict
deriving DecidableEq

/-- The pre-dedup correlation list: one entry per UI signal that found a
best match with positive score. -/
def candidate_correlations (ui_signals : List SignalDict) (va : VisualAnalysis) :
    List Correlation :=
  ui_signals.filterMap fun ui =>
    (best_visual_match ui va.interactive_elements).map fun m =>
      { accessibility_id := ui.id
        visual_element := m.1
        correlation_score := m.2
        ui_signal := ui }

/-- The visual-element identity key used by the dedup pass
(`f"{text}_{type}_{purpose}"`). -/
def visual_key (v : VisualElement) : String :=
  v.text ++ "_" ++ v.type ++ "_" ++ v.purpose

/-- Stable descending insertion for `sort_by_score`. -/
def insert_by_score (c : Correlation) : List Correlation → List Correlation
  | [] => [c]
  | d :: ds =>
    if d.correlation_score ≤ c.correlation_score then c :: d :: ds
    else d :: insert_by_score c ds

/-- `correlations.sort(key=..., reverse=True)`: Python's sort is stable, and
a stable sort by one key has a unique output, so this stable descending
insertion sort computes the same list. -/
def sort_by_score : List Correlation → List Correlation
  | [] => []
  | c :: cs => insert_by_score c (sort_by_score cs)

/-- The dedup walk: keep only the first (hence highest-scoring) correlation
for each distinct visual-element identity key, threading the `used` set. -/
def dedup_correlations : List Correlation → List String → List Correlation
  | [], _ => []
  | c :: cs, used =>
    if used.contains (visual_key c.visual_element) then dedup_correlations cs used
    else c :: dedup_correlations cs (visual_key c.visual_element :: used)

/-- The dict returned by `correlate_accessibility_visual`. -/
structure CorrelationReport where
  correlations : List Correlation
  total_ui_signals : Nat
  total_visual_elements : Nat
  matched_elements : Nat
deriving DecidableEq

/-- `PerceptionEngine.correlate_accessibility_visual`: score every pair, keep
the best visual match per UI signal, sort by score descending, then drop any
correlation whose visual key was already claimed by a higher-scoring one. -/
def correlate_accessibility_visual (ui_signals : List SignalDict)
    (va : VisualAnalysis) : CorrelationReport :=
  let cands := candidate_correlations ui_signals va
  let sorted := sort_by_score cands
  let uniq := dedup_correlations sorted []
  { correlations := uniq
    total_ui_signals := ui_signals.length
    total_visual_elements := va.interactive_elements.length
    matched_elements := uniq.length }

/-! ## Goal-achievement check (`agent_core.py`, `_is_goal_achieved`) -/

/-- The `SystemState` dataclass of `perception.py` (floats as `Rat`). -/
structure SystemState where
  battery_level : Int
  power_source : String
  network_status : String
  time : String
  memory_usage : Rat
  cpu_usage : Rat
deriving DecidableEq

/-- The long-range plan fields consulted by the goal check. -/
structure LongRangePlan where
  success_criteria : List String
  completion_indicators : List String
deriving DecidableEq

/-- The system-state attribute names probed by the goal check. -/
def system_attrs : List String :=
  ["network_status", "battery_level", "power_source", "memory_usage", "cpu_usage"]

/-- `str(getattr(system_state, attr, "unknown"))` (numeric attributes are
stringified; Python float formatting is modelled by `Rat`'s, the proofs never
exercise those attributes). -/
def attr_value_str (ss : SystemState) (attr : String) : String :=
  if attr == "network_status" then ss.network_status
  else if attr == "battery_level" then toString ss.battery_level
  else if attr == "power_source" then ss.power_source
  else if attr == "memory_usage" then toString ss.memory_usage
  else if attr == "cpu_usage" then toString ss.cpu_usage
  else "unknown"

/-- The characters stripped from a parsed target state (`.strip("'\".,")`),
written by code point: apostrophe (39), double quote (34), period, comma. -/
def quote_strip_chars : List Char := [Char.ofNat 39, Char.ofNat 34, '.', ',']

/-- The per-attribute test of the system-state indicator loop: for
`network_status` with a "changes … to Y" indicator the code extracts the text
after the last `" to "`, strips it, and tests substring containment in BOTH
directions against the current value; otherwise it tests whether the current
value occurs in the indicator. -/
def system_attr_hit (ss : SystemState) (il attr : String) : Bool :=
  let cur := pyLower (attr_value_str ss attr)
  if attr == "network_status" then
    if strContains il "changes" || strContains il "change" then
      if strContains il " to " then
        let parts := pySplitOn il " to "
        if parts.length ≥ 2 then
          let target := pyStripChars quote_strip_chars (pyStrip (parts.getLastD ""))
          strContains cur target || strContains target cur
        else false
      else false
    else strContains il cur
  else strContains il cur

/-- The per-signal test of the UI-element indicator loop: a textual hit on
title/description (or any indicator word in the title) that, for
toggle/switch/on/off indicators, must additionally be confirmed by the
element's current value. -/
def ui_indicator_hit (il : String) (s : SignalDict) : Bool :=
  let title := pyLower s.title
  let current_value := pyLower s.current_value
  let description := pyLower s.description
  if strContains title il || strContains description il
      || (pySplitWs il).any (fun kw => strContains title kw) then
    if strContains il "toggle" || strContains il "switch"
        || strContains il "off" || strContains il "on" then
      (strContains il "off" && ["off", "disabled", "false"].contains current_value)
        || (strContains il "on" && ["on", "enabled", "true"].contains current_value)
    else true
  else false

/-- One completion indicator fires when either the system-state loop or the
UI-signal loop reports a hit. -/
def completion_indicator_hit (ui_signals : List SignalDict)
    (system_state : Option SystemState) (indicator : String) : Bool :=
  let il := pyLower indicator
  (match system_state with
   | some ss => system_attrs.any fun attr => strContains il attr && system_attr_hit ss il attr
   | none => false)
    || ui_signals.any (ui_indicator_hit il)

/-- The keyword fallback at the end of `_is_goal_achieved` (a sequence of
independent `if` blocks with early returns, hence the else-chain). -/
def goal_fallback_check (goal : String) (ui_signals : List SignalDict)
    (confidence : Rat) : Bool :=
  let gl := pyLower goal
  if ["echo", "command", "terminal", "iterm", "bash", "shell"].any
      (fun k => strContains gl k) then
    confidence > 0.8
  else if strContains gl "battery" && strContains gl "optimize"
      && ui_signals.any (fun s =>
          strContains (pyLower s.id) "low_power"
            && ["on", "always", "only on battery"].contains (pyLower s.current_value)) then
    true
  else if ["search", "find", "look for"].any (fun k => strContains gl k) then
    confidence > 0.7
  else if ["calculate", "math", "calculator", "+", "-", "*", "/"].any
      (fun k => strContains gl k) then
    confidence > 0.8
  else if ["video", "show", "watch", "play"].any (fun k => strContains gl k)
      && ui_signals.any (fun s =>
          ["play", "pause", "full screen", "seek slider"].any
            (fun k => strContains (pyLower s.title) k)) then
    true
  else confidence > 0.9

/-- `AgentCore._is_goal_achieved`: when a long-range plan with criteria or
indicators exists, any firing completion indicator yields true; otherwise
(or when none fires) control falls through to the keyword fallback. -/
def is_goal_achieved (goal : String) (long_range_plan : Option LongRangePlan)
    (ui_signals : List SignalDict) (system_state : Option SystemState)
    (confidence : Rat) : Bool :=
  let plan_hit :=
    match long_range_plan with
    | some plan =>
      if plan.success_criteria ≠ [] ∨ plan.completion_indicators ≠ [] then
        plan.completion_indicators.any (completion_indicator_hit ui_signals system_state)
      else false
    | none => false
  if plan_hit then true
  else goal_fallback_check goal ui_signals confidence

/-! ## ACT phase (`agent_core.py`, `AgentCore.act`)

The step executor `ActionEngine.execute_action` is an external boundary:
it is a parameter returning `Except.error e` when executing the step raises
(the `except` arm of the inner `try`) and `Except.ok r` when it returns a
result dict.  Memory stores and `time.sleep` are side-effect-free here. -/

/-- The slice of an action dict the orchestrator reads (`action["action"]`). -/
structure ActionStep where
  action : String
deriving DecidableEq

/-- An executor result dict (`success` plus its message payload). -/
structure StepResult where
  success : Bool
  detail : String
deriving DecidableEq

/-- The `AgentState` dataclass of `agent_core.py`. -/
structure AgentState where
  goal : String
  current_task : String
  progress : Rat
  confidence : Rat
  last_action : String
  error_count : Nat
  session_id : String
deriving DecidableEq

/-- The four return shapes of `AgentCore.act`, tagged by return site:
`noActions` is `{"success": False, "reason": "No actions in plan"}`;
`stepRaised e results` is the immediate failure return from the `except`
arm; `pausedEarly completed total results` is the early return after a
successful non-final step (the dict carrying `"partial": True`,
`completed_actions`, `total_actions`); `finished results` is the
end-of-plan return. -/
inductive ActResult where
  | noActions
  | stepRaised (error : String) (results : List StepResult)
  | pausedEarly (completed total : Nat) (results : List StepResult)
  | finished (results : List StepResult)
deriving DecidableEq

/-- The `success` field of each return dict of `act`. -/
def ActResult.success : ActResult → Bool
  | noActions => false
  | stepRaised _ _ => false
  | pausedEarly _ _ _ => true
  | finished results => results.any (fun r => r.success)

/-- The `reason` field of each return dict of `act`. -/
def ActResult.reason : ActResult → Option String
  | noActions => some "No actions in plan"
  | _ => none

/-- The step loop of `act` (index `i`, collected `results`): a raising step
increments the error counter and returns failure at once; a returned step
result is appended, the agent state is updated (`last_action`, `progress =
(i+1)/total`), and unless the step was the final one the loop returns early
with the partial outcome. -/
def act_steps (execute : ActionStep → Except String StepResult) (total : Nat) :
    List ActionStep → Nat → List StepResult → AgentState → ActResult × AgentState
  | [], _, results, st => (ActResult.finished results, st)
  | step :: rest, i, results, st =>
    match execute step with
    | Except.error e =>
      (ActResult.stepRaised e (results ++ [{ success := false, detail := e }]),
       { st with error_count := st.error_count + 1 })
    | Except.ok r =>
      let results := results ++ [r]
      let st := { st with
        last_action := step.action
        progress := ((i + 1 : Nat) : Rat) / ((total : Nat) : Rat) }
      if i < total - 1 then (ActResult.pausedEarly (i + 1) total results, st)
      else act_steps execute total rest (i + 1) results st

/-- `AgentCore.act`: `reasoning_result.get("plan", [])` is the optional plan;
an empty or absent plan short-circuits with `noActions` and an untouched
agent state. -/
def act (execute : ActionStep → Except String StepResult)
    (reasoning_plan : Option (List ActionStep)) (st : AgentState) :
    ActResult × AgentState :=
  let plan := reasoning_plan.getD []
  if plan.isEmpty then (ActResult.noActions, st)
  else act_steps execute plan.length plan 0 [] st

/-! ## Orchestrator loop (`agent_core.py`, `run_autonomous_loop`)

The external phases of one iteration are summarized by an oracle-supplied
event: a PERCEIVE failure, a REASON failure, an ACT whose result dict has
`success = False`, or a successful ACT together with the outcome of the
post-action observation (the goal-check verdict and the final confidence)
and the agent progress it left behind. -/

/-- One loop iteration's external outcome. -/
inductive IterStep where
  | perceiveFail
  | reasonFail
  | actFail (progressAfter : Rat)
  | actOk (progressAfter : Rat) (goalAchieved : Bool) (confidence : Rat)
deriving DecidableEq

/-- What `run_autonomous_loop` hands back to its caller: a structured result
dict, or Python `None` — the value produced by the bare `return` statement on
the very-low-confidence path. -/
inductive RunResult where
  | finished (success : Bool) (iterations : Nat) (errors : Nat) (progress : Rat)
      (message : String)
  | pyNone
deriving DecidableEq

/-- The `while` loop of `run_autonomous_loop` (the part after the long-range
planning preamble).  Faithful control flow per iteration: perceive/reason/act
failures increment `error_count` and continue; a successful act resets it to
0, then the goal check may return the success dict (`progress = 1.0`), then
`confidence < 0.1` executes a bare `return` (modelled as `pyNone`); leaving
the `while` returns the failure dict whose message always reads "Max
iterations reached without achieving goal" — also when the loop was exited
because `error_count` reached `max_errors`.  The result is `none` only when
the event trace is too short to drive the loop to termination. -/
def run_autonomous_loop (goal : String) (max_iter max_errors : Nat)
    (events : List IterStep) (iterations error_count : Nat) (progress : Rat) :
    Option RunResult :=
  if iterations < max_iter ∧ error_count < max_errors then
    match events with
    | [] => none
    | e :: rest =>
      match e with
      | IterStep.perceiveFail =>
        run_autonomous_loop goal max_iter max_errors rest (iterations + 1)
          (error_count + 1) progress
      | IterStep.reasonFail =>
        run_autonomous_loop goal max_iter max_errors rest (iterations + 1)
          (error_count + 1) progress
      | IterStep.actFail p =>
        run_autonomous_loop goal max_iter max_errors rest (iterations + 1)
          (error_count + 1) p
      | IterStep.actOk p goalAchieved confidence =>
        if goalAchieved then
          some (RunResult.finished true (iterations + 1) 0 1
            ("Goal achieved: " ++ goal))
        else if confidence < 0.1 then
          some RunResult.pyNone
        else
          run_autonomous_loop goal max_iter max_errors rest (iterations + 1) 0 p
  else
    some (RunResult.finished false iterations error_count progress
      "Max iterations reached without achieving goal")
  termination_by events.length

/-! ## Concrete inputs used by evaluation theorems and witnesses -/

/-- A long-range plan whose only completion indicator is the directional
network indicator from the spec's test. -/
def network_plan : LongRangePlan :=
  { success_criteria := []
    completion_indicators := ["network_status changes from disconnected to connected"] }

/-- A system snapshot whose network is still disconnected. -/
def sys_disconnected : SystemState :=
  { battery_level := 80, power_source := "battery", network_status := "disconnected",
    time := "12:00", memory_usage := 40, cpu_usage := 10 }

/-- The same snapshot after the network came up. -/
def sys_connected : SystemState :=
  { sys_disconnected with network_status := "connected" }

/-- A deterministic demo executor: the step named "fail step" raises,
every other step returns a successful result dict. -/
def demo_execute : ActionStep → Except String StepResult := fun s =>
  if s.action == "fail step" then Except.error "element not found"
  else Except.ok { success := true, detail := "done" }

/-- A fresh agent state. -/
def demo_agent_state : AgentState :=
  { goal := "", current_task := "", progress := 0, confidence := 0,
    last_action := "", error_count := 0, session_id := "s" }

/-- A step the demo executor executes successfully. -/
def demo_step_ok : ActionStep := { action := "click element" }

/-- The step the demo executor raises on. -/
def demo_step_fail : ActionStep := { action := "fail step" }

/-- The invariant threaded through one discovery call, relative to the set
`seen0` the scan started from: collected element ids are duplicate-free,
every collected id is recorded in the current identity set, every collected
id is new relative to `seen0`, and the identity set only grows. -/
def ScanInv (seen0 : List String) (p : List UISignal × List String) : Prop :=
  (p.1.map fun s => s.id).Nodup
  ∧ (∀ s ∈ p.1, s.id ∈ p.2)
  ∧ (∀ s ∈ p.1, s.id ∉ seen0)
  ∧ (∀ x ∈ seen0, x ∈ p.2)

/-- Sortedness by descending correlation score. -/
def ScoreSorted : List Correlation → Prop :=
  List.Pairwise (fun a b => b.correlation_score ≤ a.correlation_score)

/-- A demo visual element for the correlation witness. -/
def demo_visual : VisualElement :=
  { type := "button", position := "top", text := "Network Mode",
    purpose := "toggle network", characteristics := "", task_relevant := true,
    coordinates := some (100, 100) }

/-- A demo discovered/serialized UI signal for the correlation witness. -/
def demo_signal (i : String) (x : Int) : SignalDict :=
  { id := i, type := "AXButton", position := (x, 100), size := (10, 10),
    current_value := "", available_options := [], actions := [],
    title := "Network Mode", description := "network", enabled := true,
    focused := false }

/-- A demo visual analysis for the correlation witness. -/
def demo_va : VisualAnalysis :=
  { screen_description := "", interactive_elements := [demo_visual],
    safety_warnings := [], alternative_methods := [], task_context := "" }

/-- A demo accessibility button for the discovery witness. -/
def demo_button (ident : String) (x : Int) : RawElement :=
  { role := "AXButton", identifier := ident, title := "OK", description := "",
    helpText := "", value := "", roleDescription := "", posX := x, posY := 10,
    sizeW := 20, sizeH := 10, enabled := true, focused := false,
    childTitles := [], actionNames := [] }

/-- A demo UI tree with a duplicated element inside a window and across
windows, for the discovery witness. -/
def demo_windows : List Window :=
  [[demo_button "btn1" 5, demo_button "btn1" 5, demo_button "btn2" 7],
   [demo_button "btn2" 7]]

/-! ## Theorems -/

/-- List membership matches the boolean `contains` used by the source's
identity sets. -/
theorem mem_iff_contains {l : List String} {a : String} :
    l.contains a = true ↔ a ∈ l := by
  simp [List.contains, List.elem_iff]

/-- A `foldl` preserves any invariant its step function preserves. -/
theorem foldl_preserve {α β : Type} {P : β → Prop} {f : β → α → β}
    (hf : ∀ b a, P b → P (f b a)) :
    ∀ (l : List α) (b : β), P b → P (l.foldl f b) := by
  intro l
  induction l with
  | nil => exact fun _ h => h
  | cons a t ih => exact fun b h => ih _ (hf b a h)

/-- C1: the claim says the directional check on
`"network_status changes from disconnected to connected"` returns true when
`network_status = "connected"` and false when it is `"disconnected"`.  The
code evaluates to true in BOTH cases: the parsed destination state
`"connected"` is tested with Python substring containment
(`target_state in current_state_str`), and `"connected"` is a substring of
`"disconnected"`.  This contradicts the code's own comments ("check if
current state matches the END state (Y), not the start state (X)"), so the
second conjunct exhibits the code bug. -/
theorem goal_check_directional_indicator_eval :
    is_goal_achieved "reconnect the network" (some network_plan) []
        (some sys_connected) 0 = true
    ∧ is_goal_achieved "reconnect the network" (some network_plan) []
        (some sys_disconnected) 0 = true :=
  ⟨by decide, by decide⟩

/-- C2: the claim says `run_autonomous_loop` never returns `None` on any
termination path.  On the low-confidence termination path the source executes
a bare `return` (agent_core.py line 450), so the caller receives `None`:
here a run whose first iteration acts successfully, does not achieve the
goal, and ends with confidence 0.05 < 0.1 yields the `None` value. -/
theorem run_loop_low_confidence_returns_none :
    run_autonomous_loop "test goal" 10 5 [IterStep.actOk 0 false 0.05] 0 0 0
      = some RunResult.pyNone := by
  rw [run_autonomous_loop]
  norm_num

/-- C3 counterexample: when the enumeration of applications/windows raises,
`discover_ui_signals` returns a value identical to that of a successful
discovery over zero windows — an empty element list, not a discovery-level
error — so the claim that callers can distinguish the two cases is false. -/
theorem discover_error_indistinguishable :
    discover_ui_signals [] (Except.error "cannot enumerate applications")
        = discover_ui_signals [] (Except.ok [])
    ∧ (discover_ui_signals [] (Except.error "cannot enumerate applications")).1 = [] :=
  ⟨rfl, rfl⟩

/-- C3 amended: total discovery failure is swallowed by the surrounding
`try/except`: for every prior dedup state and every error message, discover
returns the empty element list (with a cleared dedup set), exactly the value
returned for a successful discovery that found zero windows. -/
theorem discover_error_swallowed (prior : List String) (msg : String) :
    discover_ui_signals prior (Except.error msg) = ([], [])
    ∧ discover_ui_signals prior (Except.error msg)
        = discover_ui_signals prior (Except.ok []) :=
  ⟨rfl, rfl⟩

/-- C3 witness: a concrete failing enumeration with a non-empty prior dedup
set. -/
theorem discover_error_swallowed_witness :
    discover_ui_signals ["old_id"] (Except.error "AXError") = ([], [])
    ∧ discover_ui_signals ["old_id"] (Except.error "AXError")
        = discover_ui_signals ["old_id"] (Except.ok []) :=
  discover_error_swallowed ["old_id"] "AXError"

/-- C6 counterexample: the claim says a −1 penalty is applied whenever either
side's text is a generic token.  With both texts `"button"` the exact-match
branch fires first and awards +2, so no penalty is applied: the claim's
universal statement is false. -/
theorem generic_penalty_not_always_applied :
    ¬ (∀ uiTitle visText : String,
        (pyLower (pyStrip uiTitle) ∈ generic_texts
          ∨ pyLower (pyStrip visText) ∈ generic_texts) →
        text_score uiTitle visText = -1) := by
  intro h
  have h2 := h "button" "button" (Or.inl (by decide))
  have h3 : text_score "button" "button" = 2 := by decide
  rw [h3] at h2
  exact absurd h2 (by decide)

/-- C6 amended: the −1 penalty is applied only in the `elif` of the text
correlation: both raw texts must be non-empty, the exact-match/meaningful-
substring branch must not fire, and either cleaned side must be one of the
generic tokens "button", "turn off", "click". -/
theorem generic_penalty_needs_no_text_match (uiTitle visText : String)
    (h1 : uiTitle ≠ "") (h2 : visText ≠ "")
    (h3 : ¬ (pyLower (pyStrip uiTitle) = pyLower (pyStrip visText)
      ∨ ((pyLower (pyStrip uiTitle)).length > 3
          ∧ strContains (pyLower (pyStrip visText)) (pyLower (pyStrip uiTitle)) = true)
      ∨ ((pyLower (pyStrip visText)).length > 3
          ∧ strContains (pyLower (pyStrip uiTitle)) (pyLower (pyStrip visText)) = true)))
    (h4 : pyLower (pyStrip uiTitle) ∈ generic_texts
      ∨ pyLower (pyStrip visText) ∈ generic_texts) :
    text_score uiTitle visText = -1 := by
  simp only [text_score]
  rw [if_pos ⟨h1, h2⟩, if_neg h3, if_pos h4]

/-- C6 witness: `"click"` against an unrelated text takes the penalty. -/
theorem generic_penalty_needs_no_text_match_witness :
    text_score "click" "zzzz" = -1 :=
  generic_penalty_needs_no_text_match "click" "zzzz" (by decide) (by decide)
    (by decide) (by decide)

/-- C7: with `max_errors = 3`, three consecutive iterations ending in action
failure drive `error_count` to 3, the `while` condition fails, and the run
terminates as a failure after exactly 3 iterations — the remaining trace is
never consumed and `max_iter` is not reached (the returned message is the
loop's single exit message). -/
theorem error_budget_three_failures (goal : String) (max_iter : Nat)
    (h : 3 < max_iter) (p1 p2 p3 prog0 : Rat) (rest : List IterStep) :
    run_autonomous_loop goal max_iter 3
        (IterStep.actFail p1 :: IterStep.actFail p2 :: IterStep.actFail p3 :: rest)
        0 0 prog0
      = some (RunResult.finished false 3 3 p3
          "Max iterations reached without achieving goal") := by
  have h0 : 0 < max_iter := by omega
  have h1 : 1 < max_iter := by omega
  have h2 : 2 < max_iter := by omega
  simp [run_autonomous_loop, h0, h1, h2]
  rw [run_autonomous_loop.eq_def]
  simp

/-- C7 witness: concrete run with `max_iter = 10`. -/
theorem error_budget_three_failures_witness :
    run_autonomous_loop "g" 10 3
        [IterStep.actFail 0, IterStep.actFail 0, IterStep.actFail 0] 0 0 0
      = some (RunResult.finished false 3 3 0
          "Max iterations reached without achieving goal") :=
  error_budget_three_failures "g" 10 (by norm_num) 0 0 0 0 []

/-- C8: a fully successful ACT resets the error counter: after two action
failures and one successful action the loop continues with `error_count = 0`
(first conjunct), so two further failures leave `error_count = 2 < 3` and the
loop keeps running into the rest of the trace instead of tripping the budget
(second conjunct). -/
theorem error_reset_on_success (goal : String) (max_iter : Nat)
    (h : 5 ≤ max_iter) (p1 p2 p3 p4 p5 prog0 conf : Rat)
    (hconf : ¬ conf < 0.1) (rest3 rest5 : List IterStep) :
    (run_autonomous_loop goal max_iter 3
        (IterStep.actFail p1 :: IterStep.actFail p2
          :: IterStep.actOk p3 false conf :: rest3) 0 0 prog0
      = run_autonomous_loop goal max_iter 3 rest3 3 0 p3)
    ∧ (run_autonomous_loop goal max_iter 3
        (IterStep.actFail p1 :: IterStep.actFail p2
          :: IterStep.actOk p3 false conf
          :: IterStep.actFail p4 :: IterStep.actFail p5 :: rest5) 0 0 prog0
      = run_autonomous_loop goal max_iter 3 rest5 5 2 p5) := by
  have h0 : 0 < max_iter := by omega
  have h1 : 1 < max_iter := by omega
  have h2 : 2 < max_iter := by omega
  have h3 : 3 < max_iter := by omega
  have h4 : 4 < max_iter := by omega
  constructor
  · simp [run_autonomous_loop, h0, h1, h2, hconf]
  · simp [run_autonomous_loop, h0, h1, h2, h3, h4, hconf]

/-- C8 witness: concrete instantiation with confidence 1. -/
theorem error_reset_on_success_witness :
    (run_autonomous_loop "g" 10 3
        [IterStep.actFail 0, IterStep.actFail 0, IterStep.actOk 0 false 1] 0 0 0
      = run_autonomous_loop "g" 10 3 [] 3 0 0)
    ∧ (run_autonomous_loop "g" 10 3
        [IterStep.actFail 0, IterStep.actFail 0, IterStep.actOk 0 false 1,
         IterStep.actFail 0, IterStep.actFail 0] 0 0 0
      = run_autonomous_loop "g" 10 3 [] 5 2 0) :=
  error_reset_on_success "g" 10 (by norm_num) 0 0 0 0 0 0 1 (by norm_num) [] []

/-- C9: `act` executes a plan one step at a time.  For any plan with more
than one step: if the first step's execution returns a result, `act` returns
early with the partial outcome reporting 1 of `total` steps completed (the
remaining steps are not drained); if the first step's execution raises, `act`
returns failure immediately with the error and the incremented error counter
— in both cases independently of the remaining steps. -/
theorem act_one_step_then_return (execute : ActionStep → Except String StepResult)
    (s1 s2 : ActionStep) (rest : List ActionStep) (st : AgentState) :
    (∀ r, execute s1 = Except.ok r →
      act execute (some (s1 :: s2 :: rest)) st
        = (ActResult.pausedEarly 1 (s1 :: s2 :: rest).length [r],
           { st with
              last_action := s1.action
              progress := (1 : Rat) / ((s1 :: s2 :: rest).length : Rat) }))
    ∧ (∀ e, execute s1 = Except.error e →
      act execute (some (s1 :: s2 :: rest)) st
        = (ActResult.stepRaised e [{ success := false, detail := e }],
           { st with error_count := st.error_count + 1 })) := by
  constructor
  · intro r hr
    simp [act, act_steps, hr]
  · intro e he
    simp [act, act_steps, he]

/-- C9 witness: a success-first and a raise-first two-step plan under the
demo executor. -/
theorem act_one_step_then_return_witness :
    act demo_execute (some [demo_step_ok, demo_step_fail]) demo_agent_state
      = (ActResult.pausedEarly 1 [demo_step_ok, demo_step_fail].length
           [{ success := true, detail := "done" }],
         { demo_agent_state with
            last_action := demo_step_ok.action
            progress := (1 : Rat) / (([demo_step_ok, demo_step_fail] : List ActionStep).length : Rat) })
    ∧ act demo_execute (some [demo_step_fail, demo_step_ok]) demo_agent_state
      = (ActResult.stepRaised "element not found"
           [{ success := false, detail := "element not found" }],
         { demo_agent_state with error_count := demo_agent_state.error_count + 1 }) :=
  ⟨(act_one_step_then_return demo_execute demo_step_ok demo_step_fail []
      demo_agent_state).1 { success := true, detail := "done" } rfl,
   (act_one_step_then_return demo_execute demo_step_fail demo_step_ok []
      demo_agent_state).2 "element not found" rfl⟩

/-- C10: for an absent or empty plan, `act` returns the
`{"success": False, "reason": "No actions in plan"}` dict and the agent
state (last action, progress, error count) is returned unchanged; the
executor parameter is universally quantified, so no step is executed. -/
theorem act_empty_plan (execute : ActionStep → Except String StepResult)
    (reasoning_plan : Option (List ActionStep)) (st : AgentState)
    (h : reasoning_plan = none ∨ reasoning_plan = some []) :
    act execute reasoning_plan st = (ActResult.noActions, st)
    ∧ ActResult.noActions.success = false
    ∧ ActResult.noActions.reason = some "No actions in plan" := by
  rcases h with h | h <;> subst h <;> exact ⟨rfl, rfl, rfl⟩

/-- C10 witness: the absent-plan case under the demo executor. -/
theorem act_empty_plan_witness :
    act demo_execute none demo_agent_state = (ActResult.noActions, demo_agent_state)
    ∧ ActResult.noActions.success = false
    ∧ ActResult.noActions.reason = some "No actions in plan" :=
  act_empty_plan demo_execute none demo_agent_state (Or.inl rfl)

/-- One element step of the window scan preserves the scan invariant. -/
theorem scan_element_step_inv {seen0 : List String} (role : String)
    (acc : List UISignal × List String) (e : RawElement)
    (h : ScanInv seen0 acc) : ScanInv seen0 (scan_element_step role acc e) := by
  obtain ⟨hnd, hmem, hfresh, hmono⟩ := h
  by_cases hb : acc.2.contains (create_ui_signal e role).id = true
  · simp only [scan_element_step]
    rw [if_pos hb]
    exact ⟨hnd, hmem, hfresh, hmono⟩
  · have hnotin : (create_ui_signal e role).id ∉ acc.2 := fun hm => hb (mem_iff_contains.mpr hm)
    simp only [scan_element_step]
    rw [if_neg hb]
    refine ⟨?_, ?_, ?_, ?_⟩
    · rw [List.map_append]
      refine List.Nodup.append hnd (by simp) ?_
      rw [List.disjoint_left]
      intro a ha hb2
      obtain ⟨s, hs, hsid⟩ := List.mem_map.mp ha
      have hmem2 : a ∈ acc.2 := hsid ▸ hmem s hs
      simp only [List.map_cons, List.map_nil, List.mem_singleton] at hb2
      rw [hb2] at hmem2
      exact hnotin hmem2
    · intro s hs
      rcases List.mem_append.mp hs with h2 | h2
      · exact List.mem_cons_of_mem _ (hmem s h2)
      · rw [List.mem_singleton.mp h2]
        exact List.mem_cons_self _ _
    · intro s hs
      rcases List.mem_append.mp hs with h2 | h2
      · exact hfresh s h2
      · rw [List.mem_singleton.mp h2]
        exact fun hm => hnotin (hmono _ hm)
    · exact fun x hx => List.mem_cons_of_mem _ (hmono x hx)

/-- The whole window scan preserves the scan invariant relative to the
identity set it was entered with. -/
theorem scan_window_inv (w : Window) (seen : List String) :
    ScanInv seen (scan_window w seen) := by
  unfold scan_window
  refine foldl_preserve ?_ interactive_roles ([], seen) ?_
  · intro b role hb
    exact foldl_preserve (fun b2 e h2 => scan_element_step_inv role b2 e h2)
      (findAllR w role) b hb
  · exact ⟨by simp, by simp, by simp, fun x hx => hx⟩

/-- The window fold of `discover_ui_signals` keeps ids duplicate-free and
recorded in the identity set. -/
theorem discover_fold_inv (windows : List Window) :
    ((windows.foldl
        (fun acc w => let r := scan_window w acc.2; (acc.1 ++ r.1, r.2))
        (([] : List UISignal), ([] : List String))).1.map fun s => s.id).Nodup
    ∧ ∀ s ∈ (windows.foldl
        (fun acc w => let r := scan_window w acc.2; (acc.1 ++ r.1, r.2))
        (([] : List UISignal), ([] : List String))).1,
        s.id ∈ (windows.foldl
        (fun acc w => let r := scan_window w acc.2; (acc.1 ++ r.1, r.2))
        (([] : List UISignal), ([] : List String))).2 := by
  have main := foldl_preserve
    (P := fun p : List UISignal × List String =>
      (p.1.map fun s => s.id).Nodup ∧ ∀ s ∈ p.1, s.id ∈ p.2)
    (f := fun acc w => let r := scan_window w acc.2; (acc.1 ++ r.1, r.2))
    ?_ windows (([] : List UISignal), ([] : List String)) ⟨by simp, by simp⟩
  · exact main
  · intro acc w hacc
    obtain ⟨hnd, hmem⟩ := hacc
    obtain ⟨snd, smem, sfresh, smono⟩ := scan_window_inv w acc.2
    constructor
    · simp only [List.map_append]
      refine List.Nodup.append hnd snd ?_
      rw [List.disjoint_left]
      intro a ha hb
      obtain ⟨s, hs, hsid⟩ := List.mem_map.mp ha
      obtain ⟨t, ht, htid⟩ := List.mem_map.mp hb
      have h1 : a ∈ acc.2 := hsid ▸ hmem s hs
      have h2 : a ∉ acc.2 := htid ▸ sfresh t ht
      exact h2 h1
    · intro s hs
      rcases List.mem_append.mp hs with h2 | h2
      · exact smono _ (hmem s h2)
      · exact smem s h2

/-- Within one discovery call no id appears twice. -/
theorem discover_ui_signals_nodup (prior : List String)
    (enum : Except String (List Window)) :
    ((discover_ui_signals prior enum).1.map fun d => d.id).Nodup := by
  cases enum with
  | error msg => simp [discover_ui_signals]
  | ok windows =>
    have h := discover_fold_inv windows
    simp only [discover_ui_signals]
    rw [List.map_map]
    exact h.1

/-- C5: discovery is idempotent per call: the per-call identity set is
cleared on entry, so a second `discover` over the same UI tree, starting
from the identity set the first call left behind, returns exactly the same
element list (first conjunct, which holds for ANY prior set); and within one
call no element id appears twice (second conjunct). -/
theorem discover_idempotent_and_nodup (prior : List String)
    (enum : Except String (List Window)) :
    (discover_ui_signals (discover_ui_signals prior enum).2 enum).1
        = (discover_ui_signals prior enum).1
    ∧ ((discover_ui_signals prior enum).1.map fun d => d.id).Nodup :=
  ⟨rfl, discover_ui_signals_nodup prior enum⟩

/-- C5 witness: the demo tree contains the same button twice in one window
and once more in a second window. -/
theorem discover_idempotent_and_nodup_witness :
    (discover_ui_signals
        (discover_ui_signals [] (Except.ok demo_windows)).2
        (Except.ok demo_windows)).1
      = (discover_ui_signals [] (Except.ok demo_windows)).1
    ∧ ((discover_ui_signals [] (Except.ok demo_windows)).1.map fun d => d.id).Nodup :=
  discover_idempotent_and_nodup [] (Except.ok demo_windows)

/-- Membership through the stable descending insertion. -/
theorem insert_by_score_mem (c : Correlation) (l : List Correlation)
    (a : Correlation) : a ∈ insert_by_score c l ↔ a = c ∨ a ∈ l := by
  induction l with
  | nil => simp [insert_by_score]
  | cons d ds ih =>
    by_cases hc : d.correlation_score ≤ c.correlation_score
    · simp [insert_by_score, hc, List.mem_cons]
    · simp only [insert_by_score, if_neg hc, List.mem_cons, ih]
      tauto

/-- Insertion preserves descending sortedness. -/
theorem insert_by_score_sorted (c : Correlation) (l : List Correlation)
    (h : ScoreSorted l) : ScoreSorted (insert_by_score c l) := by
  induction l with
  | nil => simp [insert_by_score, ScoreSorted]
  | cons d ds ih =>
    obtain ⟨hd, hds⟩ := List.pairwise_cons.mp h
    by_cases hc : d.correlation_score ≤ c.correlation_score
    · simp only [insert_by_score, if_pos hc]
      refine List.pairwise_cons.mpr ⟨?_, h⟩
      intro b hb
      rcases List.mem_cons.mp hb with rfl | hb2
      · exact hc
      · exact le_trans (hd b hb2) hc
    · simp only [insert_by_score, if_neg hc]
      refine List.pairwise_cons.mpr ⟨?_, ih hds⟩
      intro b hb
      rcases (insert_by_score_mem c ds b).mp hb with rfl | hb2
      · exact le_of_not_le hc
      · exact hd b hb2

/-- The sort pass is sorted by descending score. -/
theorem sort_by_score_sorted (l : List Correlation) : ScoreSorted (sort_by_score l) := by
  induction l with
  | nil => simp [sort_by_score, ScoreSorted]
  | cons c cs ih =>
    simp only [sort_by_score]
    exact insert_by_score_sorted c _ ih

/-- The sort pass neither adds nor removes correlations. -/
theorem sort_by_score_mem (l : List Correlation) (a : Correlation) :
    a ∈ sort_by_score l ↔ a ∈ l := by
  induction l with
  | nil => simp [sort_by_score]
  | cons c cs ih => simp [sort_by_score, insert_by_score_mem, ih, List.mem_cons]

/-- The dedup pass only keeps input correlations. -/
theorem dedup_correlations_sub :
    ∀ (l : List Correlation) (used : List String) (c : Correlation),
      c ∈ dedup_correlations l used → c ∈ l := by
  intro l
  induction l with
  | nil => intro used c h; simp [dedup_correlations] at h
  | cons d ds ih =>
    intro used c h
    simp only [dedup_correlations] at h
    split at h
    · exact List.mem_cons_of_mem _ (ih _ _ h)
    · rcases List.mem_cons.mp h with rfl | h2
      · exact List.mem_cons_self _ _
      · exact List.mem_cons_of_mem _ (ih _ _ h2)

/-- The dedup pass yields pairwise-distinct visual keys, none of them from
the incoming `used` set. -/
theorem dedup_correlations_nodup_keys :
    ∀ (l : List Correlation) (used : List String),
      (((dedup_correlations l used).map fun c => visual_key c.visual_element).Nodup)
      ∧ ∀ c ∈ dedup_correlations l used, visual_key c.visual_element ∉ used := by
  intro l
  induction l with
  | nil => intro used; simp [dedup_correlations]
  | cons d ds ih =>
    intro used
    simp only [dedup_correlations]
    split
    case isTrue hb => exact ih used
    case isFalse hb =>
      obtain ⟨ihnd, ihused⟩ := ih (visual_key d.visual_element :: used)
      have hdused : visual_key d.visual_element ∉ used :=
        fun hm => hb (mem_iff_contains.mpr hm)
      constructor
      · simp only [List.map_cons]
        refine List.nodup_cons.mpr ⟨?_, ihnd⟩
        intro hmem
        obtain ⟨c, hc, hkey⟩ := List.mem_map.mp hmem
        have h2 := ihused c hc
        rw [hkey] at h2
        exact h2 (List.mem_cons_self _ _)
      · intro c hc
        rcases List.mem_cons.mp hc with rfl | h2
        · exact hdused
        · exact fun hm => ihused c h2 (List.mem_cons_of_mem _ hm)

/-- On a score-sorted list, every input correlation whose key is not yet
used is represented in the dedup output by a correlation with the same key
and at least its score (the first, hence highest-scoring, occurrence). -/
theorem dedup_correlations_best :
    ∀ (l : List Correlation) (used : List String), ScoreSorted l →
      ∀ c ∈ l, visual_key c.visual_element ∉ used →
        ∃ c' ∈ dedup_correlations l used,
          visual_key c'.visual_element = visual_key c.visual_element
          ∧ c.correlation_score ≤ c'.correlation_score := by
  intro l
  induction l with
  | nil => intro used _ c hc; simp at hc
  | cons d ds ih =>
    intro used hs c hc hcused
    obtain ⟨hd, hds⟩ := List.pairwise_cons.mp hs
    simp only [dedup_correlations]
    split
    case isTrue hb =>
      have hdmem : visual_key d.visual_element ∈ used := mem_iff_contains.mp hb
      rcases List.mem_cons.mp hc with rfl | h2
      · exact absurd hdmem hcused
      · exact ih used hds c h2 hcused
    case isFalse hb =>
      rcases List.mem_cons.mp hc with rfl | h2
      · exact ⟨c, List.mem_cons_self _ _, rfl, le_refl _⟩
      · by_cases hkey : visual_key c.visual_element = visual_key d.visual_element
        · exact ⟨d, List.mem_cons_self _ _, hkey.symm, hd c h2⟩
        · have hnotin : visual_key c.visual_element
              ∉ visual_key d.visual_element :: used := by
            intro hm
            rcases List.mem_cons.mp hm with h3 | h3
            · exact hkey h3
            · exact hcused h3
          obtain ⟨c', hc', hk, hle⟩ :=
            ih (visual_key d.visual_element :: used) hds c h2 hnotin
          exact ⟨c', List.mem_cons_of_mem _ hc', hk, hle⟩

/-- C4: no two correlations returned by the correlation pass reference the
same visual-element identity key (text+type+purpose); the returned
correlations all come from the candidate pass; and every candidate's visual
element is represented in the output by a correlation with at least the
candidate's score — the highest-scoring claimant wins and the weaker ones
are discarded. -/
theorem correlate_no_visual_reuse (ui_signals : List SignalDict)
    (va : VisualAnalysis) :
    (((correlate_accessibility_visual ui_signals va).correlations.map
        fun c => visual_key c.visual_element).Nodup)
    ∧ (∀ c ∈ (correlate_accessibility_visual ui_signals va).correlations,
        c ∈ candidate_correlations ui_signals va)
    ∧ (∀ c ∈ candidate_correlations ui_signals va,
        ∃ c' ∈ (correlate_accessibility_visual ui_signals va).correlations,
          visual_key c'.visual_element = visual_key c.visual_element
          ∧ c.correlation_score ≤ c'.correlation_score) := by
  refine ⟨?_, ?_, ?_⟩
  · exact (dedup_correlations_nodup_keys
      (sort_by_score (candidate_correlations ui_signals va)) []).1
  · intro c hc
    exact (sort_by_score_mem _ c).mp (dedup_correlations_sub _ [] c hc)
  · intro c hc
    have hc2 : c ∈ sort_by_score (candidate_correlations ui_signals va) :=
      (sort_by_score_mem _ c).mpr hc
    obtain ⟨c', h1, h2, h3⟩ := dedup_correlations_best _ []
      (sort_by_score_sorted _) c hc2 (by simp)
    exact ⟨c', h1, h2, h3⟩

/-- C4 witness: two UI signals both claim the single demo visual element;
the output keys are duplicate-free. -/
theorem correlate_no_visual_reuse_witness :
    (((correlate_accessibility_visual
        [demo_signal "a" 100, demo_signal "b" 500] demo_va).correlations.map
      fun c => visual_key c.visual_element).Nodup) :=
  (correlate_no_visual_reuse [demo_signal "a" 100, demo_signal "b" 500] demo_va).1

end Agent
